import Mathlib

/-!
Shallow embedding of the Dominion Energy API client
(`custom_components/dominion_energy/api.py` and `const.py`) and proofs about
its authentication, request, and data-normalization logic.

Modelling conventions:
* Decoded JSON values are `JsonVal`; a Python value obtained from a dict is
  `Option JsonVal`, with `none` standing for Python `None` (so a JSON `null`
  read out of a dict also becomes `none`).
* Python floats are modelled as rationals; `round` is round-half-to-even on
  the rational value.
* Exceptions are modelled by `Except PyErr`; the subclassing
  `DominionEnergyAuthError <: DominionEnergyApiError` is captured by
  `isApiErr`, the set of errors an `except DominionEnergyApiError` clause
  catches.
* The ambient clock (`datetime.now()`) and the HTTP exchanges are passed to
  the embedded operations as explicit arguments.
-/

namespace DominionEnergy

/-- Decoded JSON values, as produced by `response.json()`. -/
inductive JsonVal where
  | null
  | bool (b : Bool)
  | num (q : ℚ)
  | str (s : String)
  | arr (elems : List JsonVal)
  | obj (fields : List (String × JsonVal))

/-- Python truthiness of a decoded JSON value: `None`, `False`, zero, and
empty strings/lists/dicts are falsy, everything else truthy. -/
def truthy : JsonVal → Bool
  | .null => false
  | .bool b => b
  | .num q => decide (q ≠ 0)
  | .str s => decide (s ≠ "")
  | .arr xs => !xs.isEmpty
  | .obj fs => !fs.isEmpty

/-- Truthiness of a Python value (`none` = Python `None`, which is falsy). -/
def truthyOpt : Option JsonVal → Bool
  | none => false
  | some v => truthy v

/-- Python `dict.get(k, d)` on a decoded object: absent key gives the default,
a present key gives the stored value, with a stored JSON `null` surfacing as
Python `None`. -/
def pyGetD (o : List (String × JsonVal)) (k : String) (d : Option JsonVal) :
    Option JsonVal :=
  match o.lookup k with
  | none => d
  | some .null => none
  | some v => some v

/-- Python `dict.get(k)` (default `None`). -/
def pyGet (o : List (String × JsonVal)) (k : String) : Option JsonVal :=
  pyGetD o k none

/-- View a decoded JSON value as a mapping.  The source only ever calls `.get`
on decoded response objects; applying it to a non-mapping value (which would
raise `AttributeError` in Python) is outside the model and yields the empty
mapping. -/
def asObj : JsonVal → List (String × JsonVal)
  | .obj fs => fs
  | _ => []

/-- `dict.get(k)` on a decoded JSON body (see `asObj` for the non-mapping
convention). -/
def JsonVal.get (v : JsonVal) (k : String) : Option JsonVal :=
  pyGet (asObj v) k

/-- Python `str()` of a decoded JSON value, as used by f-string interpolation.
Only the string case is exercised by the client; the composite cases are
placeholders outside the model. -/
def pyStr : JsonVal → String
  | .str s => s
  | .null => "None"
  | .bool true => "True"
  | .bool false => "False"
  | .num q => toString q
  | .arr _ => "<list>"
  | .obj _ => "<dict>"

/-- A numeric view of a decoded JSON value (Python `bool` participates in the
numeric tower). -/
def asNum : JsonVal → Option ℚ
  | .num q => some q
  | .bool b => some (if b then 1 else 0)
  | _ => none

/-- Python `v > 0` as used in the derivation guards.  A truthy non-numeric
operand would raise `TypeError` in Python; that path is outside the model and
treated as failing the guard. -/
def gtZero (v : JsonVal) : Bool :=
  match asNum v with
  | some q => decide (0 < q)
  | none => false

/-- `gtZero` lifted to Python values (`None > 0` would raise; the guards only
reach it behind a truthiness check). -/
def gtZeroOpt : Option JsonVal → Bool
  | none => false
  | some v => gtZero v

/-- Rational multiplication, written through `mkRat` so that it evaluates by
kernel reduction (`ratMul_eq_mul` checks it against `*` on `ℚ`). -/
def ratMul (a b : ℚ) : ℚ :=
  mkRat (a.num * b.num) (a.den * b.den)

/-- Rational subtraction through `mkRat` (`ratSub_eq_sub` checks it against
`-` on `ℚ`). -/
def ratSub (a b : ℚ) : ℚ :=
  mkRat (a.num * b.den - b.num * a.den) (a.den * b.den)

/-- Rational division through `mkRat` (`ratDiv_eq_div` checks it against `/`
on `ℚ`; division by zero yields zero on both sides, though the source only
divides behind a positivity guard). -/
def ratDiv (a b : ℚ) : ℚ :=
  mkRat (a.num * b.den * (if b.num < 0 then -1 else 1)) (a.den * b.num.natAbs)

/-- Python true division on the numeric values the derivations divide;
non-numeric operands (a `TypeError` in Python) are outside the model. -/
def pyDivOpt (a b : Option JsonVal) : ℚ :=
  match a, b with
  | some x, some y =>
    match asNum x, asNum y with
    | some p, some q => ratDiv p q
    | _, _ => 0
  | _, _ => 0

/-- Round a rational to the nearest integer, ties to even (Python `round`). -/
def roundHalfEven (q : ℚ) : ℤ :=
  let f : ℤ := q.floor
  let r : ℚ := ratSub q (mkRat f 1)
  if r < mkRat 1 2 then f
  else if mkRat 1 2 < r then f + 1
  else if f % 2 = 0 then f else f + 1

/-- Python `round(q, n)`: round half to even at `n` decimal digits. -/
def pyRound (n : ℕ) (q : ℚ) : ℚ :=
  mkRat (roundHalfEven (ratMul q (mkRat ((10 : ℤ) ^ n) 1))) (10 ^ n)

/-- Digits of a numeral, most significant first, to a natural number. -/
def digitsToNat (cs : List Char) : ℕ :=
  cs.foldl (fun a c => 10 * a + (c.toNat - 48)) 0

/-- Strip leading and trailing whitespace (Python `str.strip()` as applied by
`int()`). -/
def pyStrip (s : String) : String :=
  ⟨((s.data.dropWhile Char.isWhitespace).reverse.dropWhile Char.isWhitespace).reverse⟩

/-- Python `int(s)` on a string: optional surrounding whitespace, optional
sign, then decimal digits; anything else raises `ValueError`. -/
def parseIntString (s : String) : Option ℤ :=
  match (pyStrip s).data with
  | [] => none
  | '+' :: ds =>
    if ds.isEmpty || !ds.all Char.isDigit then none else some (digitsToNat ds)
  | '-' :: ds =>
    if ds.isEmpty || !ds.all Char.isDigit then none
    else some (-(digitsToNat ds : ℤ))
  | ds =>
    if !ds.all Char.isDigit then none else some (digitsToNat ds)

/-- The client's exception taxonomy plus the Python-level errors that escape
it.  `authError` is `DominionEnergyAuthError`, `apiError` its
`DominionEnergyApiError` superclass, `valueError` stands for the built-in
`ValueError`/`TypeError` conversions raise. -/
inductive PyErr where
  | authError (msg : String)
  | apiError (msg : String)
  | valueError (msg : String)

/-- Which errors an `except DominionEnergyApiError` clause catches: both the
class itself and its `DominionEnergyAuthError` subclass, but no built-in
Python error. -/
def isApiErr : PyErr → Bool
  | .authError _ => true
  | .apiError _ => true
  | .valueError _ => false

/-- Python `int(v)` on a decoded JSON value: numbers truncate toward zero,
numeric strings parse, anything else raises. -/
def pyInt : JsonVal → Except PyErr ℤ
  | .num q => .ok (if q < 0 then -((-q).floor) else q.floor)
  | .bool b => .ok (if b then 1 else 0)
  | .str s =>
    match parseIntString s with
    | some n => .ok n
    | none => .error (.valueError ("invalid literal for int() with base 10: " ++ s))
  | v => .error (.valueError ("int() argument: " ++ pyStr v))

/-- A Python `datetime`: the naive wall-clock instant as seconds since the
epoch (proleptic Gregorian), plus the optional `tzinfo` as a UTC offset in
seconds. -/
structure PyDateTime where
  wall : ℤ
  tz : Option ℤ

/-- `dt.replace(tzinfo=None)`: keep the wall-clock fields, drop the zone. -/
def stripTz (d : PyDateTime) : PyDateTime :=
  { wall := d.wall, tz := none }

/-- `(a - b).days` for naive datetimes: the difference in whole days, floored
(Python `timedelta` normalization). -/
def deltaDays (a b : PyDateTime) : ℤ :=
  Int.fdiv (a.wall - b.wall) 86400

/-- Gregorian leap year. -/
def isLeap (y : ℤ) : Bool :=
  (y % 4 = 0 && y % 100 ≠ 0) || y % 400 = 0

/-- Length of a month. -/
def daysInMonth (y : ℤ) (m : ℕ) : ℕ :=
  if m = 2 then (if isLeap y then 29 else 28)
  else if m = 4 || m = 6 || m = 9 || m = 11 then 30
  else 31

/-- Days since 1970-01-01 of a civil date (Hinnant's days-from-civil). -/
def daysFromCivil (y : ℤ) (m d : ℕ) : ℤ :=
  let yShift : ℤ := if m ≤ 2 then y - 1 else y
  let era : ℤ := Int.fdiv yShift 400
  let yoe : ℤ := yShift - era * 400
  let mp : ℕ := (m + 9) % 12
  let doy : ℕ := (153 * mp + 2) / 5 + (d - 1)
  let doe : ℤ := yoe * 365 + Int.fdiv yoe 4 - Int.fdiv yoe 100 + doy
  era * 146097 + doe - 719468

/-- Read two decimal digits. -/
def parse2 (cs : List Char) : Option (ℕ × List Char) :=
  match cs with
  | a :: b :: rest =>
    if a.isDigit && b.isDigit then some (10 * (a.toNat - 48) + (b.toNat - 48), rest)
    else none
  | _ => none

/-- Read four decimal digits. -/
def parse4 (cs : List Char) : Option (ℕ × List Char) :=
  match parse2 cs with
  | some (hi, rest) =>
    match parse2 rest with
    | some (lo, rest2) => some (100 * hi + lo, rest2)
    | none => none
  | none => none

/-- Consume one expected character. -/
def expectChar (c : Char) (cs : List Char) : Option (List Char) :=
  match cs with
  | a :: rest => if a = c then some rest else none
  | _ => none

/-- Read `HH:MM` or `HH:MM:SS` as seconds within a day. -/
def parseTimePart (cs : List Char) : Option (ℕ × List Char) :=
  match parse2 cs with
  | none => none
  | some (hh, r1) =>
    match expectChar ':' r1 with
    | none => none
    | some r2 =>
      match parse2 r2 with
      | none => none
      | some (mm, r3) =>
        if 24 ≤ hh || 60 ≤ mm then none
        else
          match expectChar ':' r3 with
          | none => some (hh * 3600 + mm * 60, r3)
          | some r4 =>
            match parse2 r4 with
            | none => none
            | some (ss, r5) =>
              if 60 ≤ ss then none else some (hh * 3600 + mm * 60 + ss, r5)

/-- Read an optional trailing UTC offset (`+HH:MM` / `-HH:MM`, empty for a
naive datetime). -/
def parseOffset (cs : List Char) : Option (Option ℤ) :=
  match cs with
  | [] => some none
  | '+' :: rest =>
    match parseTimePart rest with
    | some (s, r) => if r.isEmpty then some (some (s : ℤ)) else none
    | none => none
  | '-' :: rest =>
    match parseTimePart rest with
    | some (s, r) => if r.isEmpty then some (some (-(s : ℤ))) else none
    | none => none
  | _ => none

/-- Model of `datetime.fromisoformat` on the shapes this API emits:
`YYYY-MM-DD`, optionally followed by `THH:MM[:SS]` and a `±HH:MM` offset
(the source pre-normalizes a trailing `Z` to `+00:00`).  Fractional seconds
and other extended forms are outside the model and parse as `none`. -/
def fromisoformat (s : String) : Option PyDateTime :=
  match parse4 s.data with
  | none => none
  | some (y, r1) =>
    match expectChar '-' r1 with
    | none => none
    | some r2 =>
      match parse2 r2 with
      | none => none
      | some (mo, r3) =>
        match expectChar '-' r3 with
        | none => none
        | some r4 =>
          match parse2 r4 with
          | none => none
          | some (d, r5) =>
            if y = 0 || mo < 1 || 12 < mo || d < 1 || daysInMonth y mo < d then none
            else
              let base : ℤ := daysFromCivil y mo d * 86400
              match r5 with
              | [] => some { wall := base, tz := none }
              | 'T' :: r6 =>
                match parseTimePart r6 with
                | none => none
                | some (secs, r7) =>
                  match parseOffset r7 with
                  | none => none
                  | some tz => some { wall := base + secs, tz := tz }
              | _ => none

/-- Mutable client state: the stored bearer token as the decoded Python value
last assigned to `self._token` (`none` = absent).  The credentials and account
number are per-instance constants and are passed to the operations that use
them. -/
structure ClientState where
  token : Option JsonVal := none

/-- One HTTP exchange as the client observes it: response status and decoded
JSON body. -/
structure HttpResp where
  status : ℕ
  body : JsonVal

/-- Outcome of one HTTP exchange: a transport failure
(`aiohttp.ClientError`, carrying its message) or a response. -/
abbrev HttpResult := Except String HttpResp

/-- `const.ACTION_CODE`. -/
def ACTION_CODE : String := "4"

/-- `const.DEFAULT_HEADERS`. -/
def DEFAULT_HEADERS : List (String × String) :=
  [("uid", "1"), ("pt", "1"), ("channel", "WEB"),
   ("Origin", "https://myaccount.dominionenergy.com"),
   ("Accept", "application/json"),
   ("User-Agent", "Mozilla/5.0 (Windows NT 10.0; Win64; x64) AppleWebKit/537.36 (KHTML, like Gecko) Chrome/120.0.0.0 Safari/537.36")]

/-- Model of `_get_headers`: a copy of the default headers, with
`Authorization` set to the stored token verbatim when the token is truthy. -/
def get_headers (st : ClientState) : List (String × String) :=
  DEFAULT_HEADERS ++
    (match st.token with
     | some t => if truthy t then [("Authorization", pyStr t)] else []
     | none => [])

/-- Model of `DominionEnergyApi.authenticate`.  The three HTTP exchanges one
call performs (login-page GET, token-endpoint POST, authn-endpoint POST) are
given as outcomes; later exchanges are simply unused when the control flow
never reaches them.  Returns the raised-or-returned result together with the
updated client state. -/
def authenticate (st : ClientState) (loginResp tokenResp authnResp : HttpResult) :
    Except PyErr Bool × ClientState :=
  match loginResp with
  | .error e => (.error (.authError ("Network error during authentication: " ++ e)), st)
  | .ok login =>
    if login.status ≠ 200 then
      (.error (.authError ("Failed to access login page: " ++ toString login.status)), st)
    else
      match tokenResp with
      | .error e => (.error (.authError ("Network error during authentication: " ++ e)), st)
      | .ok tok =>
        let st1 :=
          if tok.status = 200 then { st with token := tok.body.get "access_token" } else st
        if tok.status = 200 && truthyOpt (tok.body.get "access_token") then
          (.ok true, st1)
        else
          match authnResp with
          | .error e =>
            (.error (.authError ("Network error during authentication: " ++ e)), st1)
          | .ok an =>
            if an.status = 200 then
              match an.body.get "sessionToken" with
              | some stoken =>
                if truthy stoken then
                  (.ok true, { st1 with token := some (.str ("Bearer " ++ pyStr stoken)) })
                else
                  (.error (.authError "Failed to authenticate - please check your credentials"), st1)
              | none =>
                (.error (.authError "Failed to authenticate - please check your credentials"), st1)
            else
              (.error (.authError "Failed to authenticate - please check your credentials"), st1)

/-- Python `dict.update`: existing keys keep their position but take the new
value; new keys are appended in the update's order. -/
def dictUpdate (d p : List (String × String)) : List (String × String) :=
  (d.map fun kv =>
    match p.lookup kv.1 with
    | some v => (kv.1, v)
    | none => kv) ++
  p.filter fun kv => (d.lookup kv.1).isNone

/-- The query parameters `_api_request` sends: the fixed
`accountNumber`/`actionCode` pair, updated with the caller's params (a `None`
or empty params dict is falsy and leaves the pair as-is). -/
def apiRequestParams (accountNumber : String)
    (params : Option (List (String × String))) : List (String × String) :=
  let default_params := [("accountNumber", accountNumber), ("actionCode", ACTION_CODE)]
  match params with
  | none => default_params
  | some p => if p.isEmpty then default_params else dictUpdate default_params p

/-- Model of `_api_request`: the not-authenticated guard, the merged query
parameters, and the response handling (401 → auth error, other non-200 → api
error, embedded status-code check through `int()`, transport errors wrapped).
The environment's response may depend on the query actually sent. -/
def api_request (st : ClientState) (accountNumber : String)
    (params : Option (List (String × String)))
    (respond : List (String × String) → HttpResult) : Except PyErr JsonVal :=
  if !truthyOpt st.token then
    .error (.apiError "Not authenticated - call authenticate() first")
  else
    match respond (apiRequestParams accountNumber params) with
    | .error e => .error (.apiError ("Network error: " ++ e))
    | .ok r =>
      if r.status = 401 then .error (.authError "Token expired or invalid")
      else if r.status ≠ 200 then
        .error (.apiError ("API request failed with status " ++ toString r.status))
      else
        let statusObj : List (String × JsonVal) :=
          match pyGetD (asObj r.body) "status" (some (.obj [])) with
          | some (.obj fs) => fs
          | _ => []
        match pyGet statusObj "code" with
        | some c =>
          if truthy c then
            match pyInt c with
            | .error e => .error e
            | .ok n =>
              if n ≠ 200 then
                .error (.apiError ("API error: " ++
                  (match pyGetD statusObj "message" (some (.str "Unknown error")) with
                   | some m => pyStr m
                   | none => "None")))
              else .ok r.body
          else .ok r.body
        | none => .ok r.body

/-- The normalized output record (`DominionEnergyData`); fields hold the
Python values assigned by `get_all_data` (`none` = still `None`). -/
structure DominionEnergyData where
  grid_consumption : Option JsonVal := none
  grid_return : Option JsonVal := none
  monthly_usage : Option JsonVal := none
  current_bill : Option JsonVal := none
  billing_period_start : Option PyDateTime := none
  billing_period_end : Option PyDateTime := none
  current_rate : Option JsonVal := none
  daily_cost : Option JsonVal := none
  daily_usage : Option JsonVal := none
  daily_return : Option JsonVal := none

/-- `payload.get("data", {})`, viewed as a mapping (see `asObj`). -/
def getData (body : JsonVal) : List (String × JsonVal) :=
  match pyGetD (asObj body) "data" (some (.obj [])) with
  | some (.obj fs) => fs
  | _ => []

/-- `s.replace("Z", "+00:00")`: every occurrence of the single-character
pattern `Z` becomes `+00:00`. -/
def replaceZ (s : String) : String :=
  ⟨s.data.foldr (fun c acc => (if c = 'Z' then "+00:00".data else [c]) ++ acc) []⟩

/-- A billing-date field of the forecast: guarded by truthiness, then parsed
with `fromisoformat` after normalizing a `Z` suffix; a parse failure leaves
the previous value.  A truthy non-string (whose `.replace` would raise in
Python) is outside the model and also leaves the previous value. -/
def parseBillingDate (v : Option JsonVal) (prev : Option PyDateTime) :
    Option PyDateTime :=
  match v with
  | some (.str s) =>
    if s ≠ "" then
      match fromisoformat (replaceZ s) with
      | some dt => some dt
      | none => prev
    else prev
  | _ => prev

/-- The grid-return derivation of `get_all_data` (lines 301-304):
`forecast_data.get("netMeteringExportKwh", 0.0)`, falling back to
`forecast_data.get("gridReturnKwh", 0.0)` only when the first read came back
as Python `None` (which requires the key to be present with a `null`
value, since an absent key already yields the `0.0` default). -/
def gridReturnValue (forecast_data : List (String × JsonVal)) : Option JsonVal :=
  match pyGetD forecast_data "netMeteringExportKwh" (some (.num 0)) with
  | none => pyGetD forecast_data "gridReturnKwh" (some (.num 0))
  | some v => some v

/-- The body of the bill-forecast try-block of `get_all_data` (lines
258-304) on a successfully fetched payload: field extraction, date parsing,
derived rate, derived daily cost, and grid return. -/
def forecastFields (body : JsonVal) (now : PyDateTime)
    (data : DominionEnergyData) : DominionEnergyData :=
  let forecast_data := getData body
    let monthly_usage := pyGet forecast_data "currentUsageKwh"
    let current_bill :=
      match pyGet forecast_data "currentBillAmount" with
      | none => pyGet forecast_data "projectedBillAmount"
      | some v => some v
    let bps := parseBillingDate (pyGet forecast_data "billingPeriodStartDate")
      data.billing_period_start
    let bpe := parseBillingDate (pyGet forecast_data "billingPeriodEndDate")
      data.billing_period_end
    let current_rate :=
      if truthyOpt current_bill && truthyOpt monthly_usage && gtZeroOpt monthly_usage then
        some (JsonVal.num (pyRound 4 (pyDivOpt current_bill monthly_usage)))
      else data.current_rate
    let daily_cost :=
      match bps with
      | some startDt =>
        if truthyOpt current_bill then
          let days_elapsed := deltaDays now (stripTz startDt)
          if 0 < days_elapsed then
            some (JsonVal.num (pyRound 2
              (pyDivOpt current_bill (some (.num (days_elapsed : ℚ))))))
          else data.daily_cost
        else data.daily_cost
      | none => data.daily_cost
    let grid_return := gridReturnValue forecast_data
    { data with
      monthly_usage := monthly_usage
      grid_consumption := monthly_usage
      current_bill := current_bill
      billing_period_start := bps
      billing_period_end := bpe
      current_rate := current_rate
      daily_cost := daily_cost
      grid_return := grid_return }

/-- The bill-forecast try-block of `get_all_data` (lines 257-307): its
`except DominionEnergyApiError` catches both error classes; on success it
applies `forecastFields`. -/
def processForecast (res : Except PyErr JsonVal) (now : PyDateTime)
    (data : DominionEnergyData) : Except PyErr DominionEnergyData :=
  match res with
  | .error e => if isApiErr e then .ok data else .error e
  | .ok body => .ok (forecastFields body now data)

/-- The body of the usage-history try-block of `get_all_data` (lines 310-320)
on a successfully fetched payload. -/
def usageFields (body : JsonVal) (data : DominionEnergyData) :
    DominionEnergyData :=
  let history_data := getData body
  let daily_usage := pyGetD history_data "dailyUsage" (some (.arr []))
  let data1 :=
    if truthyOpt daily_usage then { data with daily_usage := daily_usage } else data
  let daily_return := pyGetD history_data "dailyReturn" (some (.arr []))
  if truthyOpt daily_return then { data1 with daily_return := daily_return }
  else data1

/-- The usage-history try-block of `get_all_data` (lines 309-323). -/
def processUsage (res : Except PyErr JsonVal) (data : DominionEnergyData) :
    Except PyErr DominionEnergyData :=
  match res with
  | .error e => if isApiErr e then .ok data else .error e
  | .ok body => .ok (usageFields body data)

/-- The body of the bill-history try-block of `get_all_data` (lines 326-337)
on a successfully fetched payload: back-fills `current_rate` from the most
recent bill when the guards pass.  Indexing a truthy non-list `bills` (a
`TypeError` in Python) is outside the model and skips the back-fill. -/
def histFields (body : JsonVal) (data : DominionEnergyData) :
    DominionEnergyData :=
  let bills := pyGetD (getData body) "bills" (some (.arr []))
  if truthyOpt bills then
    match bills with
    | some (.arr (latest_bill :: _)) =>
      if truthy latest_bill && !truthyOpt data.current_rate then
        let bill_amount := latest_bill.get "totalAmount"
        let bill_usage := latest_bill.get "totalUsageKwh"
        if truthyOpt bill_amount && truthyOpt bill_usage && gtZeroOpt bill_usage then
          { data with
            current_rate := some (JsonVal.num (pyRound 4 (pyDivOpt bill_amount bill_usage))) }
        else data
      else data
    | _ => data
  else data

/-- The bill-history try-block of `get_all_data` (lines 325-340). -/
def processHist (res : Except PyErr JsonVal) (data : DominionEnergyData) :
    Except PyErr DominionEnergyData :=
  match res with
  | .error e => if isApiErr e then .ok data else .error e
  | .ok body => .ok (histFields body data)

/-- Model of `get_all_data`: a fresh record threaded through the three
try-blocks.  The fetch outcomes are the results the three `_api_request`-based
reads produce; `now` is the ambient `datetime.now()`.  Errors the per-block
`except DominionEnergyApiError` does not catch propagate. -/
def get_all_data (forecast usage hist : Except PyErr JsonVal)
    (now : PyDateTime) : Except PyErr DominionEnergyData := do
  let data : DominionEnergyData := {}
  let data1 ← processForecast forecast now data
  let data2 ← processUsage usage data1
  let data3 ← processHist hist data2
  .ok data3

/-- Model of `validate_credentials`: the outcomes of the `authenticate()` call
and of the `get_bill_forecast()` read it performs.  `except
DominionEnergyAuthError` is matched before `except DominionEnergyApiError`,
mirroring the source's clause order. -/
def validate_credentials (auth : Except PyErr Bool)
    (forecast : Except PyErr JsonVal) : Except PyErr Bool :=
  match auth with
  | .error (.authError _) => .ok false
  | .error (.apiError _) => .ok true
  | .error e => .error e
  | .ok _ =>
    match forecast with
    | .error (.authError _) => .ok false
    | .error (.apiError _) => .ok true
    | .error e => .error e
    | .ok _ => .ok true

/-- A fetch outcome that `get_all_data`'s per-block handler fully absorbs:
either a success or an error of the caught `DominionEnergyApiError`
hierarchy. -/
def caught : Except PyErr JsonVal → Bool
  | .error e => isApiErr e
  | .ok _ => true

/-- The authenticate-then-bill-forecast sequence of `validate_credentials`
raises `DominionEnergyAuthError`: either the `authenticate()` call raises it,
or `authenticate()` returns and the `get_bill_forecast()` read raises it. -/
def raisesAuthError (auth : Except PyErr Bool)
    (forecast : Except PyErr JsonVal) : Prop :=
  (∃ m, auth = .error (.authError m)) ∨
  ((∃ b, auth = .ok b) ∧ ∃ m, forecast = .error (.authError m))

/-- The token-endpoint exchange came back as an HTTP 200 response. -/
def tokenOk200 : HttpResult → Bool
  | .ok r => decide (r.status = 200)
  | .error _ => false

/-- The `authenticate` call raised (any) exception. -/
def authFailed (r : Except PyErr Bool × ClientState) : Bool :=
  match r.1 with
  | .error _ => true
  | .ok _ => false

/-!  ## Sanity lemmas: the `mkRat`-based arithmetic agrees with `ℚ`  -/

theorem ratMul_eq_mul (a b : ℚ) : ratMul a b = a * b := by
  rw [ratMul, Rat.mkRat_eq_divInt]
  push_cast
  rw [← Rat.divInt_mul_divInt', Rat.num_divInt_den, Rat.num_divInt_den]

theorem ratSub_eq_sub (a b : ℚ) : ratSub a b = a - b := by
  rw [ratSub, Rat.mkRat_eq_divInt]
  push_cast
  rw [← Rat.divInt_sub_divInt _ _ (Int.natCast_ne_zero.mpr a.den_nz)
      (Int.natCast_ne_zero.mpr b.den_nz),
    Rat.num_divInt_den, Rat.num_divInt_den]

theorem ratDiv_eq_div (a b : ℚ) : ratDiv a b = a / b := by
  rcases lt_trichotomy b.num 0 with hb | hb | hb
  · rw [ratDiv, if_pos hb, Rat.mkRat_eq_divInt, Rat.div_def']
    have h1 : a.num * (b.den : ℤ) * -1 = -(a.num * b.den) := by ring
    have h2 : ((a.den * b.num.natAbs : ℕ) : ℤ) = -((a.den : ℤ) * b.num) := by
      push_cast [Int.natCast_natAbs]
      rw [abs_of_neg hb]
      ring
    rw [h1, h2, Rat.neg_divInt_neg]
  · have hb0 : b = 0 := Rat.num_eq_zero.mp hb
    subst hb0
    rw [ratDiv]
    simp
  · rw [ratDiv, if_neg (by omega), Rat.mkRat_eq_divInt, Rat.div_def']
    have h2 : ((a.den * b.num.natAbs : ℕ) : ℤ) = (a.den : ℤ) * b.num := by
      push_cast [Int.natCast_natAbs]
      rw [abs_of_pos hb]
    rw [mul_one, h2]

/-!  ## Helper lemmas about the `get_all_data` blocks  -/

theorem processForecast_err (e : PyErr) (he : isApiErr e = true)
    (now : PyDateTime) (d : DominionEnergyData) :
    processForecast (.error e) now d = .ok d := by
  simp [processForecast, he]

theorem processUsage_err (e : PyErr) (he : isApiErr e = true)
    (d : DominionEnergyData) : processUsage (.error e) d = .ok d := by
  simp [processUsage, he]

theorem processHist_err (e : PyErr) (he : isApiErr e = true)
    (d : DominionEnergyData) : processHist (.error e) d = .ok d := by
  simp [processHist, he]

theorem get_all_data_run (f u h : Except PyErr JsonVal) (now : PyDateTime)
    (r1 r2 r3 : DominionEnergyData)
    (h1 : processForecast f now {} = .ok r1)
    (h2 : processUsage u r1 = .ok r2)
    (h3 : processHist h r2 = .ok r3) :
    get_all_data f u h now = .ok r3 := by
  simp only [get_all_data, h1]
  show (processUsage u r1 >>= fun data2 =>
    processHist h data2 >>= fun data3 => Except.ok data3) = Except.ok r3
  rw [h2]
  show (processHist h r2 >>= fun data3 => Except.ok data3) = Except.ok r3
  rw [h3]
  rfl

theorem processForecast_run (f : Except PyErr JsonVal) (hf : caught f = true)
    (now : PyDateTime) (d : DominionEnergyData) :
    ∃ r, processForecast f now d = .ok r := by
  cases f with
  | error e => exact ⟨d, processForecast_err e hf now d⟩
  | ok body => exact ⟨_, rfl⟩

theorem processUsage_run (u : Except PyErr JsonVal) (hu : caught u = true)
    (d : DominionEnergyData) : ∃ r, processUsage u d = .ok r := by
  cases u with
  | error e => exact ⟨d, processUsage_err e hu d⟩
  | ok body => exact ⟨_, rfl⟩

theorem processHist_run (h : Except PyErr JsonVal) (hh : caught h = true)
    (d : DominionEnergyData) : ∃ r, processHist h d = .ok r := by
  cases h with
  | error e => exact ⟨d, processHist_err e hh d⟩
  | ok body => exact ⟨_, rfl⟩

/-- `usageFields` touches only the two daily fields. -/
theorem usageFields_frame (body : JsonVal) (d : DominionEnergyData) :
    (usageFields body d).grid_consumption = d.grid_consumption ∧
    (usageFields body d).grid_return = d.grid_return ∧
    (usageFields body d).monthly_usage = d.monthly_usage ∧
    (usageFields body d).current_bill = d.current_bill ∧
    (usageFields body d).billing_period_start = d.billing_period_start ∧
    (usageFields body d).billing_period_end = d.billing_period_end ∧
    (usageFields body d).current_rate = d.current_rate ∧
    (usageFields body d).daily_cost = d.daily_cost := by
  cases hdu : truthyOpt (pyGetD (getData body) "dailyUsage" (some (.arr []))) <;>
  cases hdr : truthyOpt (pyGetD (getData body) "dailyReturn" (some (.arr []))) <;>
    simp [usageFields, hdu, hdr]

/-- `histFields` either leaves the record unchanged or (only when the record
carries no truthy rate) overwrites `current_rate` alone. -/
theorem histFields_cases (body : JsonVal) (d : DominionEnergyData) :
    histFields body d = d ∨
    (truthyOpt d.current_rate = false ∧
      ∃ r, histFields body d = { d with current_rate := some r }) := by
  simp only [histFields]
  split
  · split
    · split
      · rename_i hguard
        split
        · right
          rw [Bool.and_eq_true, Bool.not_eq_true'] at hguard
          exact ⟨hguard.2, _, rfl⟩
        · left; rfl
      · left; rfl
    · left; rfl
  · left; rfl

/-- `histFields` touches only `current_rate`, and leaves even that alone when
the record already carries a truthy rate. -/
theorem histFields_frame (body : JsonVal) (d : DominionEnergyData) :
    (histFields body d).grid_consumption = d.grid_consumption ∧
    (histFields body d).grid_return = d.grid_return ∧
    (histFields body d).monthly_usage = d.monthly_usage ∧
    (histFields body d).current_bill = d.current_bill ∧
    (histFields body d).billing_period_start = d.billing_period_start ∧
    (histFields body d).billing_period_end = d.billing_period_end ∧
    (histFields body d).daily_cost = d.daily_cost ∧
    (histFields body d).daily_usage = d.daily_usage ∧
    (histFields body d).daily_return = d.daily_return ∧
    (truthyOpt d.current_rate = true →
      (histFields body d).current_rate = d.current_rate) := by
  rcases histFields_cases body d with h | ⟨hcr, r, h⟩ <;> rw [h]
  · exact ⟨rfl, rfl, rfl, rfl, rfl, rfl, rfl, rfl, rfl, fun _ => rfl⟩
  · refine ⟨rfl, rfl, rfl, rfl, rfl, rfl, rfl, rfl, rfl, fun hc => ?_⟩
    rw [hc] at hcr
    cases hcr

/-- `forecastFields` never touches the two daily fields. -/
theorem forecastFields_daily (body : JsonVal) (now : PyDateTime)
    (d : DominionEnergyData) :
    (forecastFields body now d).daily_usage = d.daily_usage ∧
    (forecastFields body now d).daily_return = d.daily_return :=
  ⟨rfl, rfl⟩

/-- Frame property of the usage try-block at the `Except` level. -/
theorem processUsage_frame (u : Except PyErr JsonVal) (d r : DominionEnergyData)
    (hr : processUsage u d = .ok r) :
    r.grid_consumption = d.grid_consumption ∧ r.grid_return = d.grid_return ∧
    r.monthly_usage = d.monthly_usage ∧ r.current_bill = d.current_bill ∧
    r.billing_period_start = d.billing_period_start ∧
    r.billing_period_end = d.billing_period_end ∧
    r.current_rate = d.current_rate ∧ r.daily_cost = d.daily_cost := by
  cases u with
  | error e =>
    simp only [processUsage] at hr
    split at hr
    · cases hr
      exact ⟨rfl, rfl, rfl, rfl, rfl, rfl, rfl, rfl⟩
    · cases hr
  | ok body =>
    simp only [processUsage] at hr
    cases hr
    exact usageFields_frame body d

/-- Frame property of the bill-history try-block at the `Except` level. -/
theorem processHist_frame (h : Except PyErr JsonVal) (d r : DominionEnergyData)
    (hr : processHist h d = .ok r) :
    r.grid_consumption = d.grid_consumption ∧ r.grid_return = d.grid_return ∧
    r.monthly_usage = d.monthly_usage ∧ r.current_bill = d.current_bill ∧
    r.billing_period_start = d.billing_period_start ∧
    r.billing_period_end = d.billing_period_end ∧
    r.daily_cost = d.daily_cost ∧ r.daily_usage = d.daily_usage ∧
    r.daily_return = d.daily_return ∧
    (truthyOpt d.current_rate = true → r.current_rate = d.current_rate) := by
  cases h with
  | error e =>
    simp only [processHist] at hr
    split at hr
    · cases hr
      exact ⟨rfl, rfl, rfl, rfl, rfl, rfl, rfl, rfl, rfl, fun _ => rfl⟩
    · cases hr
  | ok body =>
    simp only [processHist] at hr
    cases hr
    exact histFields_frame body d

/-- The forecast try-block never touches the daily fields, at the `Except`
level. -/
theorem processForecast_daily (f : Except PyErr JsonVal) (now : PyDateTime)
    (d r : DominionEnergyData) (hr : processForecast f now d = .ok r) :
    r.daily_usage = d.daily_usage ∧ r.daily_return = d.daily_return := by
  cases f with
  | error e =>
    simp only [processForecast] at hr
    split at hr
    · cases hr
      exact ⟨rfl, rfl⟩
    · cases hr
  | ok body =>
    simp only [processForecast] at hr
    cases hr
    exact forecastFields_daily body now d

/-!  ## Lookup lemmas for the query-parameter merge  -/

theorem lookup_append_some (l1 l2 : List (String × String)) (k v : String)
    (h : l1.lookup k = some v) : (l1 ++ l2).lookup k = some v := by
  induction l1 with
  | nil => cases h
  | cons a t ih =>
    obtain ⟨a1, a2⟩ := a
    simp only [List.cons_append, List.lookup] at h ⊢
    cases hk : k == a1 <;> simp only [hk] at h ⊢
    · exact ih h
    · exact h

theorem lookup_append_none (l1 l2 : List (String × String)) (k : String)
    (h : l1.lookup k = none) : (l1 ++ l2).lookup k = l2.lookup k := by
  induction l1 with
  | nil => rfl
  | cons a t ih =>
    obtain ⟨a1, a2⟩ := a
    simp only [List.cons_append, List.lookup] at h ⊢
    cases hk : k == a1 <;> simp only [hk] at h ⊢
    · exact ih h
    · cases h

theorem lookup_map_upd (d p : List (String × String)) (k : String) :
    (d.map fun kv =>
      match p.lookup kv.1 with
      | some v => (kv.1, v)
      | none => kv).lookup k
    = match d.lookup k with
      | none => none
      | some v0 =>
        match p.lookup k with
        | some v => some v
        | none => some v0 := by
  induction d with
  | nil => rfl
  | cons a t ih =>
    obtain ⟨a1, a2⟩ := a
    by_cases hkk : k = a1
    · subst hkk
      cases hpa : p.lookup k with
      | some v => simp [List.lookup, hpa]
      | none => simp [List.lookup, hpa]
    · have hk : (k == a1) = false := beq_eq_false_iff_ne.mpr hkk
      cases hpa : p.lookup a1 with
      | some v => simp only [List.map_cons, List.lookup, hpa, hk, ih]
      | none => simp only [List.map_cons, List.lookup, hpa, hk, ih]

theorem lookup_filter_absent (d p : List (String × String)) (k : String)
    (hd : d.lookup k = none) :
    (p.filter fun kv => (d.lookup kv.1).isNone).lookup k = p.lookup k := by
  induction p with
  | nil => rfl
  | cons a t ih =>
    obtain ⟨a1, a2⟩ := a
    by_cases hkk : k = a1
    · subst hkk
      rw [List.filter_cons, if_pos (show (List.lookup (k, a2).1 d).isNone = true by simp [hd])]
      simp only [List.lookup, beq_self_eq_true]
    · have hk : (k == a1) = false := beq_eq_false_iff_ne.mpr hkk
      rw [List.filter_cons]
      cases hg : (d.lookup (a1, a2).1).isNone
      · rw [if_neg (by simp [hg])]
        rw [ih]
        simp only [List.lookup, hk]
      · rw [if_pos rfl]
        simp only [List.lookup, hk, ih]

theorem lookup_filter_present (d p : List (String × String)) (k : String)
    (hd : (d.lookup k).isSome) :
    (p.filter fun kv => (d.lookup kv.1).isNone).lookup k = none := by
  induction p with
  | nil => rfl
  | cons a t ih =>
    obtain ⟨a1, a2⟩ := a
    by_cases hkk : k = a1
    · subst hkk
      have hno : (d.lookup (k, a2).1).isNone = false := by
        cases hv : d.lookup k
        · rw [hv] at hd; cases hd
        · rfl
      rw [List.filter_cons, if_neg (by simp [hno])]
      exact ih
    · have hk : (k == a1) = false := beq_eq_false_iff_ne.mpr hkk
      rw [List.filter_cons]
      cases hg : (d.lookup (a1, a2).1).isNone
      · rw [if_neg (by simp [hg])]
        exact ih
      · rw [if_pos rfl]
        simp only [List.lookup, hk]
        exact ih

/-- The query `dictUpdate` produces: the caller value wherever the caller map
has the key, the defaults value otherwise. -/
theorem lookup_dictUpdate (d p : List (String × String)) (k : String) :
    (dictUpdate d p).lookup k =
      match p.lookup k with
      | some v => some v
      | none => d.lookup k := by
  unfold dictUpdate
  cases hd : d.lookup k with
  | none =>
    have h1 : (d.map fun kv =>
        match p.lookup kv.1 with
        | some v => (kv.1, v)
        | none => kv).lookup k = none := by
      rw [lookup_map_upd, hd]
    rw [lookup_append_none _ _ _ h1, lookup_filter_absent d p k hd]
    cases hp : p.lookup k <;> simp
  | some v0 =>
    cases hp : p.lookup k with
    | none =>
      refine lookup_append_some _ _ _ _ ?_
      rw [lookup_map_upd, hd, hp]
    | some v =>
      refine lookup_append_some _ _ _ _ ?_
      rw [lookup_map_upd, hd, hp]

theorem lookup_of_mem_nodup (p : List (String × String)) (k v : String)
    (hnd : (p.map Prod.fst).Nodup) (hm : (k, v) ∈ p) : p.lookup k = some v := by
  induction p with
  | nil => cases hm
  | cons a t ih =>
    rcases List.mem_cons.mp hm with heq | hmem
    · cases heq
      simp [List.lookup]
    · have hnd' := hnd
      rw [List.map_cons, List.nodup_cons] at hnd'
      have hk : (k == a.1) = false := by
        rw [beq_eq_false_iff_ne]
        intro hkk
        exact hnd'.1 (hkk ▸ List.mem_map.mpr ⟨(k, v), hmem, rfl⟩)
      obtain ⟨a1, a2⟩ := a
      simp only [List.lookup, hk]
      exact ih hnd'.2 hmem

theorem lookup_of_not_mem (p : List (String × String)) (k : String)
    (h : k ∉ p.map Prod.fst) : p.lookup k = none := by
  induction p with
  | nil => rfl
  | cons a t ih =>
    have hk : (k == a.1) = false := by
      rw [beq_eq_false_iff_ne]
      intro hkk
      exact h (by simp [hkk])
    obtain ⟨a1, a2⟩ := a
    simp only [List.lookup, hk]
    refine ih fun hm => h ?_
    rw [List.map_cons]
    exact List.mem_cons_of_mem _ hm

/-!  ## Theorems about the claims  -/

/-- C8: `validate_credentials` returns false exactly when the
authenticate-then-bill-forecast sequence raises AuthError; a non-auth
ApiError after a successful authenticate yields true, and full success
yields true. -/
theorem c8_validate_credentials_contract :
    (∀ (auth : Except PyErr Bool) (forecast : Except PyErr JsonVal),
      validate_credentials auth forecast = .ok false ↔
        raisesAuthError auth forecast) ∧
    (∀ (b : Bool) (m : String),
      validate_credentials (.ok b) (.error (.apiError m)) = .ok true) ∧
    (∀ (b : Bool) (body : JsonVal),
      validate_credentials (.ok b) (.ok body) = .ok true) := by
  refine ⟨?_, fun b m => rfl, fun b body => rfl⟩
  intro auth forecast
  cases auth with
  | error e => cases e <;> simp [validate_credentials, raisesAuthError]
  | ok b =>
    cases forecast with
    | error e => cases e <;> simp [validate_credentials, raisesAuthError]
    | ok v => simp [validate_credentials, raisesAuthError]

/-- C7: an ApiError from one endpoint degrades only that endpoint's fields
and never aborts `get_all_data`: a failed usage fetch behaves exactly like an
empty usage payload (daily fields left unset, forecast-derived fields
untouched), a failed bill-history fetch behaves like an empty history, the
whole call returns a record for any absorbed outcomes, and an erroring
forecast block passes the record through unchanged. -/
theorem c7_api_error_partial_failure_isolation :
    ∀ (f u h : Except PyErr JsonVal) (now : PyDateTime) (m : String),
      caught f = true → caught u = true → caught h = true →
      (get_all_data f (.error (.apiError m)) h now
        = get_all_data f (.ok (.obj [])) h now) ∧
      (∃ d, get_all_data f (.error (.apiError m)) h now = .ok d ∧
        d.daily_usage = none ∧ d.daily_return = none) ∧
      (∃ d, get_all_data f u h now = .ok d) ∧
      (get_all_data f u (.error (.apiError m)) now
        = get_all_data f u (.ok (.obj [])) now) ∧
      (∀ d0, processForecast (.error (.apiError m)) now d0 = .ok d0) := by
  intro f u h now m hf hu hh
  obtain ⟨r1, h1⟩ := processForecast_run f hf now {}
  obtain ⟨r3, h3⟩ := processHist_run h hh r1
  obtain ⟨r2, h2⟩ := processUsage_run u hu r1
  obtain ⟨r4, h4⟩ := processHist_run h hh r2
  have hr1 : r1.daily_usage = none ∧ r1.daily_return = none := by
    have := processForecast_daily f now {} r1 h1
    exact this
  have hr3 : r3.daily_usage = none ∧ r3.daily_return = none := by
    obtain ⟨-, -, -, -, -, -, -, hdu, hdr, -⟩ := processHist_frame h r1 r3 h3
    exact ⟨hdu.trans hr1.1, hdr.trans hr1.2⟩
  refine ⟨?_, ⟨r3, ?_, hr3.1, hr3.2⟩, ⟨r4, ?_⟩, ?_, fun d0 => rfl⟩
  · rw [get_all_data_run f (.error (.apiError m)) h now r1 r1 r3 h1
        (processUsage_err (.apiError m) rfl r1) h3,
      get_all_data_run f (.ok (.obj [])) h now r1 r1 r3 h1 rfl h3]
  · exact get_all_data_run f (.error (.apiError m)) h now r1 r1 r3 h1
      (processUsage_err (.apiError m) rfl r1) h3
  · exact get_all_data_run f u h now r1 r2 r4 h1 h2 h4
  · rw [get_all_data_run f u (.error (.apiError m)) now r1 r2 r2 h1 h2
        (processHist_err (.apiError m) rfl r2),
      get_all_data_run f u (.ok (.obj [])) now r1 r2 r2 h1 h2 rfl]

/-- C7 witness: instantiated with empty successful forecast/history payloads
and a failed usage fetch. -/
theorem c7_witness :
    caught (.ok (.obj [])) = true ∧
    (∃ d, get_all_data (.ok (.obj [])) (.error (.apiError "HTTP 500"))
        (.ok (.obj [])) ⟨0, none⟩ = .ok d ∧
      d.daily_usage = none ∧ d.daily_return = none) :=
  ⟨rfl, (c7_api_error_partial_failure_isolation (.ok (.obj [])) (.ok (.obj []))
    (.ok (.obj [])) ⟨0, none⟩ "HTTP 500" rfl rfl rfl).2.1⟩

/-- C1: when the login page answers 200 and the token endpoint answers 200
with a non-empty `access_token`, `authenticate` succeeds via strategy 2, but
the stored token is the raw `access_token` string — not `Bearer
<access_token>` as the spec states — and that raw string is what
`_get_headers` later injects verbatim as the `Authorization` header. -/
theorem c1_strategy2_stores_raw_access_token :
    authenticate {} (.ok ⟨200, .obj []⟩)
        (.ok ⟨200, .obj [("access_token", .str "abc")]⟩) (.ok ⟨200, .obj []⟩)
      = (.ok true, { token := some (.str "abc") }) ∧
    get_headers { token := some (.str "abc") }
      = DEFAULT_HEADERS ++ [("Authorization", "abc")] ∧
    ("abc" : String) ≠ "Bearer abc" :=
  ⟨rfl, rfl, by decide⟩

/-- C2: an AuthError raised by a sub-fetch does not propagate out of
`get_all_data`: the per-endpoint `except DominionEnergyApiError` also catches
its `DominionEnergyAuthError` subclass, so the call returns a normal (empty)
record instead of re-raising — and the forecast block ignores auth errors for
every starting record. -/
theorem c2_auth_error_swallowed_inside_get_all_data :
    get_all_data (.error (.authError "Token expired or invalid"))
        (.ok (.obj [])) (.ok (.obj [])) ⟨0, none⟩ = .ok {} ∧
    (∀ (m : String) (now : PyDateTime) (d : DominionEnergyData),
      processForecast (.error (.authError m)) now d = .ok d) :=
  ⟨rfl, fun _ _ _ => rfl⟩

/-- C3 counterexample: a caller-supplied `accountNumber` key does override the
fixed client value in the query `_api_request` sends (`dict.update` lets the
caller's map win), contradicting the claim that the fixed pair is retained. -/
theorem c3_counterexample_caller_overrides_fixed_pair :
    apiRequestParams "12345" (some [("accountNumber", "HACK")])
      = [("accountNumber", "HACK"), ("actionCode", "4")] ∧
    (apiRequestParams "12345" (some [("accountNumber", "HACK")])).lookup "accountNumber"
      = some "HACK" ∧
    ("HACK" : String) ≠ "12345" :=
  ⟨rfl, rfl, by decide⟩

/-- C3 amended: the query `_api_request` sends contains every caller-supplied
key with its caller-supplied value, and a key the caller map does not contain
resolves to the fixed default pair — but a caller-supplied `accountNumber` or
`actionCode` overrides the fixed value (`dict.update` lets the caller map
win), rather than being retained as the claim stated. -/
theorem c3_amended_caller_params_merge :
    ∀ (acct : String) (p : List (String × String)) (k v : String),
      (p.map Prod.fst).Nodup →
      ((k, v) ∈ p → (apiRequestParams acct (some p)).lookup k = some v) ∧
      (k ∉ p.map Prod.fst →
        (apiRequestParams acct (some p)).lookup k
          = ([("accountNumber", acct), ("actionCode", ACTION_CODE)]
              : List (String × String)).lookup k) := by
  intro acct p k v hnd
  constructor
  · intro hm
    have hp : p.lookup k = some v := lookup_of_mem_nodup p k v hnd hm
    have hne : p.isEmpty = false := by
      cases p
      · cases hm
      · rfl
    simp only [apiRequestParams, hne, Bool.false_eq_true, if_false]
    rw [lookup_dictUpdate, hp]
  · intro hnm
    have hp : p.lookup k = none := lookup_of_not_mem p k hnm
    cases hpe : p.isEmpty
    · simp only [apiRequestParams, hpe, Bool.false_eq_true, if_false]
      rw [lookup_dictUpdate, hp]
    · simp only [apiRequestParams, hpe, if_true]

/-- C3 amended, witness: a caller map with only `startDate` keeps its value
in the sent query while `accountNumber` still resolves to the client value. -/
theorem c3_amended_witness :
    (([("startDate", "2024-01-01")].map Prod.fst).Nodup) ∧
    (apiRequestParams "12345" (some [("startDate", "2024-01-01")])).lookup "startDate"
      = some "2024-01-01" ∧
    (apiRequestParams "12345" (some [("startDate", "2024-01-01")])).lookup "accountNumber"
      = some "12345" :=
  ⟨by simp,
   (c3_amended_caller_params_merge "12345" [("startDate", "2024-01-01")]
      "startDate" "2024-01-01" (by simp)).1 (by simp),
   ((c3_amended_caller_params_merge "12345" [("startDate", "2024-01-01")]
      "accountNumber" "unused" (by simp)).2 (by simp)).trans rfl⟩

/-- C4 counterexample: with `netMeteringExportKwh` absent and
`gridReturnKwh: 12.5`, `get_all_data` yields `grid_return = 0.0`, not the
claimed 12.5 — the `.get(..., 0.0)` default means an absent net-metering field
never falls through to the grid-return field. -/
theorem c4_counterexample_absent_net_metering_field :
    get_all_data (.ok (.obj [("data", .obj [("gridReturnKwh", .num (25 / 2))])]))
        (.ok (.obj [])) (.ok (.obj [])) ⟨0, none⟩
      = .ok { grid_return := some (.num 0) } ∧
    (25 / 2 : ℚ) ≠ 0 :=
  ⟨rfl, by norm_num⟩

/-- C4 amended: `get_all_data` derives `grid_return` as `gridReturnValue`,
which yields the net-metering export value whenever that field is present and
non-null; falls back to the generic grid-return field (default 0.0) only when
the net-metering field is present-but-null; and yields 0.0 outright whenever
the net-metering field is absent, regardless of any `gridReturnKwh` value. -/
theorem c4_amended_grid_return_derivation :
    ∀ (fd : List (String × JsonVal)) (u h : Except PyErr JsonVal)
      (now : PyDateTime),
      caught u = true → caught h = true →
      (∃ d, get_all_data (.ok (.obj [("data", .obj fd)])) u h now = .ok d ∧
        d.grid_return = gridReturnValue fd) ∧
      (fd.lookup "netMeteringExportKwh" = none →
        gridReturnValue fd = some (.num 0)) ∧
      (fd.lookup "netMeteringExportKwh" = some .null →
        (fd.lookup "gridReturnKwh" = none →
          gridReturnValue fd = some (.num 0)) ∧
        (∀ g : ℚ, fd.lookup "gridReturnKwh" = some (.num g) →
          gridReturnValue fd = some (.num g))) ∧
      (∀ v : JsonVal, fd.lookup "netMeteringExportKwh" = some v → v ≠ .null →
        gridReturnValue fd = some v) := by
  intro fd u h now hu hh
  refine ⟨?_, ?_, ?_, ?_⟩
  · have h1 : processForecast (.ok (.obj [("data", .obj fd)])) now {}
        = .ok (forecastFields (.obj [("data", .obj fd)]) now {}) := rfl
    obtain ⟨r2, h2⟩ := processUsage_run u hu _
    obtain ⟨r3, h3⟩ := processHist_run h hh r2
    refine ⟨r3, get_all_data_run _ u h now _ r2 r3 h1 h2 h3, ?_⟩
    obtain ⟨-, hgr2, -, -, -, -, -, -⟩ := processUsage_frame u _ r2 h2
    obtain ⟨-, hgr3, -, -, -, -, -, -, -, -⟩ := processHist_frame h r2 r3 h3
    rw [hgr3, hgr2]
    rfl
  · intro hnm
    simp [gridReturnValue, pyGetD, hnm]
  · intro hnull
    constructor
    · intro hgr
      simp [gridReturnValue, pyGetD, hnull, hgr]
    · intro g hgr
      simp [gridReturnValue, pyGetD, hnull, hgr]
  · intro v hv hne
    cases v
    · exact absurd rfl hne
    all_goals simp [gridReturnValue, pyGetD, hv]

/-- C4 amended, witness: an empty forecast data object (net-metering field
absent) yields `grid_return = 0.0`. -/
theorem c4_amended_witness :
    caught (.ok (.obj [])) = true ∧
    (∃ d, get_all_data (.ok (.obj [("data", .obj [])])) (.ok (.obj []))
        (.ok (.obj [])) ⟨0, none⟩ = .ok d ∧
      d.grid_return = gridReturnValue []) ∧
    gridReturnValue [] = some (.num 0) :=
  ⟨rfl,
   (c4_amended_grid_return_derivation [] (.ok (.obj [])) (.ok (.obj []))
      ⟨0, none⟩ rfl rfl).1,
   (c4_amended_grid_return_derivation [] (.ok (.obj [])) (.ok (.obj []))
      ⟨0, none⟩ rfl rfl).2.1 rfl⟩

/-- C5 counterexample: starting from a stored token, a failed `authenticate`
run in which the token endpoint answers 200 without an `access_token` (and the
session-token endpoint yields none either) clears the stored token — the exact
scenario the claim says leaves it unchanged. -/
theorem c5_counterexample_failed_login_clears_token :
    authenticate { token := some (.str "Bearer old") } (.ok ⟨200, .obj []⟩)
        (.ok ⟨200, .obj []⟩) (.ok ⟨200, .obj []⟩)
      = (.error (.authError "Failed to authenticate - please check your credentials"),
         { token := none }) ∧
    (none : Option JsonVal) ≠ some (.str "Bearer old") :=
  ⟨rfl, fun h => Option.noConfusion h⟩

/-- C5 amended: a failed `authenticate` leaves the stored token unchanged in
every run whose token-endpoint exchange did not come back as HTTP 200; but
when the token endpoint answers 200 (in a run that reached it) the stored
token is unconditionally overwritten with the response's `access_token`
value — which on a failed run is an untruthy value, so a previously stored
token is effectively cleared rather than preserved.  (The code has no
explicit reset operation at all.) -/
theorem c5_amended_token_preservation :
    ∀ (st : ClientState) (L T A : HttpResult),
      authFailed (authenticate st L T A) = true →
      (tokenOk200 T = false → (authenticate st L T A).2 = st) ∧
      (∀ l r, L = .ok l → l.status = 200 → T = .ok r → r.status = 200 →
        (authenticate st L T A).2.token = r.body.get "access_token" ∧
        truthyOpt (r.body.get "access_token") = false) := by
  intro st L T A hfail
  constructor
  · intro hT
    cases L with
    | error e => rfl
    | ok l =>
      by_cases hls : l.status = 200
      · cases T with
        | error e => simp [authenticate, hls]
        | ok r =>
          have hrs : ¬(r.status = 200) := by
            intro h200
            rw [tokenOk200] at hT
            simp [h200] at hT
          simp [authenticate, hls, hrs] at hfail ⊢
          cases A with
          | error e => simp
          | ok an =>
            by_cases has : an.status = 200
            · simp only [has, if_true, reduceIte] at hfail ⊢
              cases hstok : an.body.get "sessionToken" with
              | none => simp [hstok]
              | some stoken =>
                cases htr : truthy stoken
                · simp [hstok, htr]
                · rw [hstok] at hfail
                  simp [htr, authFailed] at hfail
            · simp [has]
      · simp [authenticate, hls]
  · intro l r hL hls hT hrs
    subst hL
    subst hT
    by_cases htr : truthyOpt (r.body.get "access_token") = true
    · exfalso
      simp [authenticate, hls, hrs, htr, authFailed] at hfail
    · rw [Bool.not_eq_true] at htr
      refine ⟨?_, htr⟩
      simp [authenticate, hls, hrs, htr] at hfail ⊢
      cases A with
      | error e => rfl
      | ok an =>
        by_cases has : an.status = 200
        · simp only [has, if_true, reduceIte] at hfail ⊢
          cases hstok : an.body.get "sessionToken" with
          | none => rfl
          | some stoken =>
            cases htk : truthy stoken
            · simp [hstok, htk]
            · rw [hstok] at hfail
              simp [htk, authFailed] at hfail
        · simp [has]

/-- C5 amended, witness: a failed run whose token endpoint answered 500
leaves a previously stored token in place. -/
theorem c5_amended_witness :
    authFailed (authenticate { token := some (.str "Bearer keep") }
      (.ok ⟨200, .obj []⟩) (.ok ⟨500, .obj []⟩) (.ok ⟨404, .obj []⟩)) = true ∧
    tokenOk200 (.ok ⟨500, .obj []⟩) = false ∧
    (authenticate { token := some (.str "Bearer keep") } (.ok ⟨200, .obj []⟩)
        (.ok ⟨500, .obj []⟩) (.ok ⟨404, .obj []⟩)).2
      = { token := some (.str "Bearer keep") } :=
  ⟨rfl, rfl,
   (c5_amended_token_preservation { token := some (.str "Bearer keep") }
      (.ok ⟨200, .obj []⟩) (.ok ⟨500, .obj []⟩) (.ok ⟨404, .obj []⟩) rfl).1 rfl⟩

/-- C6 counterexample: a present-but-zero `currentBillAmount` (0.0) with
usage 500 derives no rate at all — the guard tests Python truthiness of the
bill, not mere presence — so `current_rate` stays `None` instead of the
claimed `round(0/500, 4)`. -/
theorem c6_counterexample_zero_bill_derives_no_rate :
    get_all_data (.ok (.obj [("data", .obj
          [("currentUsageKwh", .num 500), ("currentBillAmount", .num 0)])]))
        (.ok (.obj [])) (.ok (.obj [])) ⟨0, none⟩
      = .ok { monthly_usage := some (.num 500), grid_consumption := some (.num 500),
              current_bill := some (.num 0), grid_return := some (.num 0) } ∧
    (none : Option JsonVal) ≠ some (.num (pyRound 4 ((0 : ℚ) / 500))) :=
  ⟨rfl, fun h => Option.noConfusion h⟩

/-- C6 amended: the forecast step derives
`current_rate = round(bill / usage, 4)` when the resolved current bill is a
truthy (present, non-zero) number and the monthly usage is a number > 0 —
mere presence is not enough, since the guard tests Python truthiness — and
the derived rate survives to the returned record whenever it is non-zero
(a derived rate that rounds to 0.0 is itself falsy and may be overwritten by
the back-fill).  The bill-history step back-fills
`round(totalAmount / totalUsageKwh, 4)` from the most recent bill when the
record's rate is still untruthy and the bill's amount is truthy and its
usage > 0. -/
theorem c6_amended_rate_derivation :
    ∀ (fd lb : List (String × JsonVal)) (u h : Except PyErr JsonVal)
      (rest : List JsonVal) (now : PyDateTime) (m : String) (b q a uu : ℚ),
      caught u = true → caught h = true →
      (fd.lookup "currentBillAmount" = some (.num b) → b ≠ 0 →
        fd.lookup "currentUsageKwh" = some (.num q) → 0 < q →
        pyRound 4 (ratDiv b q) ≠ 0 →
        ∃ d, get_all_data (.ok (.obj [("data", .obj fd)])) u h now = .ok d ∧
          d.current_rate = some (.num (pyRound 4 (ratDiv b q)))) ∧
      (lb.lookup "totalAmount" = some (.num a) → a ≠ 0 →
        lb.lookup "totalUsageKwh" = some (.num uu) → 0 < uu →
        ∃ d, get_all_data (.error (.apiError m)) u
            (.ok (.obj [("data", .obj [("bills", .arr (.obj lb :: rest))])])) now
          = .ok d ∧
          d.current_rate = some (.num (pyRound 4 (ratDiv a uu)))) := by
  intro fd lb u h rest now m b q a uu hu hh
  constructor
  · intro hb hb0 hq hq0 hr0
    have hgd : getData (.obj [("data", .obj fd)]) = fd := rfl
    have h1 : processForecast (.ok (.obj [("data", .obj fd)])) now {}
        = .ok (forecastFields (.obj [("data", .obj fd)]) now {}) := rfl
    obtain ⟨r2, h2⟩ := processUsage_run u hu _
    obtain ⟨r3, h3⟩ := processHist_run h hh r2
    have hcr1 : (forecastFields (.obj [("data", .obj fd)]) now {}).current_rate
        = some (.num (pyRound 4 (ratDiv b q))) := by
      simp [forecastFields, hgd, pyGet, pyGetD, hb, hq, truthy, truthyOpt,
        gtZero, gtZeroOpt, asNum, pyDivOpt, hb0, hq0, hq0.ne']
    obtain ⟨-, -, -, -, -, -, hcr2, -⟩ := processUsage_frame u _ r2 h2
    have hr2 : r2.current_rate = some (.num (pyRound 4 (ratDiv b q))) :=
      hcr2.trans hcr1
    obtain ⟨-, -, -, -, -, -, -, -, -, hcr3⟩ := processHist_frame h r2 r3 h3
    have htr2 : truthyOpt r2.current_rate = true := by
      rw [hr2]
      simp [truthyOpt, truthy, hr0]
    exact ⟨r3, get_all_data_run _ u h now _ r2 r3 h1 h2 h3,
      (hcr3 htr2).trans hr2⟩
  · intro ha ha0 huu huu0
    have h1 : processForecast (.error (.apiError m)) now ({} : DominionEnergyData)
        = .ok {} := processForecast_err (.apiError m) rfl now {}
    obtain ⟨r2, h2⟩ := processUsage_run u hu {}
    obtain ⟨-, -, -, -, -, -, hcr2, -⟩ := processUsage_frame u {} r2 h2
    have hr2 : r2.current_rate = none := hcr2
    have hlb : lb.isEmpty = false := by
      cases lb
      · simp [List.lookup] at ha
      · rfl
    have hgd : getData (.obj [("data", .obj [("bills", .arr (.obj lb :: rest))])])
        = [("bills", .arr (.obj lb :: rest))] := rfl
    have hh3 : histFields (.obj [("data", .obj [("bills", .arr (.obj lb :: rest))])]) r2
        = { r2 with current_rate := some (.num (pyRound 4 (ratDiv a uu))) } := by
      simp [histFields, hgd, pyGetD, pyGet, JsonVal.get, asObj, ha, huu, truthy,
        truthyOpt, gtZero, gtZeroOpt, asNum, pyDivOpt, hr2, hlb, ha0, huu0,
        huu0.ne']
    have h3 : processHist
        (.ok (.obj [("data", .obj [("bills", .arr (.obj lb :: rest))])])) r2
        = .ok ({ r2 with current_rate := some (.num (pyRound 4 (ratDiv a uu))) }) := by
      show Except.ok
        (histFields (.obj [("data", .obj [("bills", .arr (.obj lb :: rest))])]) r2) = _
      rw [hh3]
    exact ⟨_, get_all_data_run _ u _ now {} r2 _ h1 h2 h3, rfl⟩

/-- C6 amended, witness: usage 500 and bill 75 derive rate 0.15, which is
kept through an empty bill history. -/
theorem c6_amended_witness :
    pyRound 4 (ratDiv 75 500) ≠ 0 ∧
    (∃ d, get_all_data (.ok (.obj [("data", .obj
          [("currentBillAmount", .num 75), ("currentUsageKwh", .num 500)])]))
        (.ok (.obj [])) (.ok (.obj [])) ⟨0, none⟩ = .ok d ∧
      d.current_rate = some (.num (pyRound 4 (ratDiv 75 500)))) :=
  ⟨by decide,
   (c6_amended_rate_derivation
      [("currentBillAmount", .num 75), ("currentUsageKwh", .num 500)] []
      (.ok (.obj [])) (.ok (.obj [])) [] ⟨0, none⟩ "unused" 75 500 1 1
      rfl rfl).1 rfl (by norm_num) rfl (by norm_num) (by decide)⟩

/-- C9 counterexample: with billing start `2026-10-01T23:00:00`, bill 110 and
the current moment `2026-10-12T10:00:00`, the code computes 10 elapsed days
(the time of day is kept; only tzinfo is stripped) and `daily_cost = 11.0`,
while the claim's date-portion rule gives 11 days and `round(110/11, 2) =
10.0`. -/
theorem c9_counterexample_time_of_day_not_discarded :
    get_all_data (.ok (.obj [("data", .obj
          [("billingPeriodStartDate", .str "2026-10-01T23:00:00"),
           ("currentBillAmount", .num 110)])]))
        (.ok (.obj [])) (.ok (.obj []))
        ⟨daysFromCivil 2026 10 12 * 86400 + 36000, none⟩
      = .ok { current_bill := some (.num 110),
              billing_period_start := some ⟨daysFromCivil 2026 10 1 * 86400 + 82800, none⟩,
              daily_cost := some (.num 11),
              grid_return := some (.num 0) } ∧
    Int.fdiv ((daysFromCivil 2026 10 12 * 86400 + 36000)
        - daysFromCivil 2026 10 1 * 86400) 86400 = 11 ∧
    pyRound 2 (ratDiv 110 11) = 10 ∧
    ((11 : ℚ) ≠ 10) :=
  ⟨rfl, by decide, by decide, by norm_num⟩

/-- C9 amended: when the billing-period start parses and the current bill is
a truthy (non-zero) number, `daily_cost` is `round(bill / d, 2)` where `d` is
the floored number of whole days between the parsed start **with only its
zone information discarded (time of day retained)** and the current moment —
computed only when `d > 0`, otherwise left unset. -/
theorem c9_amended_daily_cost_derivation :
    ∀ (fd : List (String × JsonVal)) (u h : Except PyErr JsonVal)
      (now dt : PyDateTime) (s : String) (b : ℚ),
      caught u = true → caught h = true →
      fd.lookup "billingPeriodStartDate" = some (.str s) → s ≠ "" →
      fromisoformat (replaceZ s) = some dt →
      fd.lookup "currentBillAmount" = some (.num b) → b ≠ 0 →
      ∃ d, get_all_data (.ok (.obj [("data", .obj fd)])) u h now = .ok d ∧
        d.billing_period_start = some dt ∧
        d.daily_cost = (if 0 < deltaDays now (stripTz dt) then
          some (.num (pyRound 2 (ratDiv b (deltaDays now (stripTz dt) : ℚ))))
          else none) := by
  intro fd u h now dt s b hu hh hsl hs hparse hb hb0
  have hgd : getData (.obj [("data", .obj fd)]) = fd := rfl
  have h1 : processForecast (.ok (.obj [("data", .obj fd)])) now {}
      = .ok (forecastFields (.obj [("data", .obj fd)]) now {}) := rfl
  obtain ⟨r2, h2⟩ := processUsage_run u hu _
  obtain ⟨r3, h3⟩ := processHist_run h hh r2
  have hbps : (forecastFields (.obj [("data", .obj fd)]) now {}).billing_period_start
      = some dt := by
    simp [forecastFields, hgd, pyGet, pyGetD, hsl, parseBillingDate, hs, hparse]
  have hdc : (forecastFields (.obj [("data", .obj fd)]) now {}).daily_cost
      = (if 0 < deltaDays now (stripTz dt) then
          some (.num (pyRound 2 (ratDiv b (deltaDays now (stripTz dt) : ℚ))))
          else none) := by
    simp [forecastFields, hgd, pyGet, pyGetD, hsl, parseBillingDate, hs, hparse,
      hb, truthy, truthyOpt, asNum, pyDivOpt, hb0]
  obtain ⟨-, -, -, -, hbps2, -, -, hdc2⟩ := processUsage_frame u _ r2 h2
  obtain ⟨-, -, -, -, hbps3, -, hdc3, -, -, -⟩ := processHist_frame h r2 r3 h3
  exact ⟨r3, get_all_data_run _ u h now _ r2 r3 h1 h2 h3,
    (hbps3.trans hbps2).trans hbps, (hdc3.trans hdc2).trans hdc⟩

/-- C9 amended, witness: a date-only billing start ten days before `now` with
bill 50 yields `daily_cost = 5.0`. -/
theorem c9_amended_witness :
    ("2024-01-01" : String) ≠ "" ∧
    (∃ d, get_all_data (.ok (.obj [("data", .obj
          [("billingPeriodStartDate", .str "2024-01-01"),
           ("currentBillAmount", .num 50)])]))
        (.ok (.obj [])) (.ok (.obj []))
        ⟨daysFromCivil 2024 1 11 * 86400, none⟩ = .ok d ∧
      d.billing_period_start = some ⟨daysFromCivil 2024 1 1 * 86400, none⟩ ∧
      d.daily_cost = (if 0 < deltaDays ⟨daysFromCivil 2024 1 11 * 86400, none⟩
          (stripTz ⟨daysFromCivil 2024 1 1 * 86400, none⟩) then
        some (.num (pyRound 2 (ratDiv 50 (deltaDays
          ⟨daysFromCivil 2024 1 11 * 86400, none⟩
          (stripTz ⟨daysFromCivil 2024 1 1 * 86400, none⟩) : ℚ))))
        else none)) :=
  ⟨by decide,
   c9_amended_daily_cost_derivation
      [("billingPeriodStartDate", .str "2024-01-01"), ("currentBillAmount", .num 50)]
      (.ok (.obj [])) (.ok (.obj []))
      ⟨daysFromCivil 2024 1 11 * 86400, none⟩
      ⟨daysFromCivil 2024 1 1 * 86400, none⟩
      "2024-01-01" 50 rfl rfl rfl (by decide) rfl rfl (by norm_num)⟩

/-- C10: an HTTP-200 response whose embedded status object carries the truthy
non-numeric code `"error"` makes `_api_request` raise a `ValueError` from the
`int()` conversion — an exception outside the ApiError/AuthError taxonomy
(the surrounding handler only converts transport errors). -/
theorem c10_truthy_string_status_code_escapes_taxonomy :
    api_request { token := some (.str "Bearer t") } "12345" none
        (fun _ => .ok ⟨200, .obj [("status", .obj [("code", .str "error")])]⟩)
      = .error (.valueError "invalid literal for int() with base 10: error") ∧
    isApiErr (.valueError "invalid literal for int() with base 10: error") = false :=
  ⟨rfl, rfl⟩

end DominionEnergy
